import Mathlib

/-!
Verification of the wacom-area active-area calculator (`src/main.py`).

The program is a single-file Python CLI.  Its geometry core works on Python
floats; we embed those computations over `ℚ` (exact rational arithmetic), so
"within floating-point tolerance" statements become exact statements.
Python's `round` (banker's rounding, round-half-to-even) is modelled exactly,
`sys.exit(msg)` becomes the `Outcome.exited` constructor (a non-zero process
exit carrying a diagnostic), and an unhandled Python exception becomes
`Outcome.crashed`.  External `xsetwacom` process calls are modelled as a
trace of `Action`s: read-only queries, the "reset to default area" write
issued by `get_tablet_max_area`, and the final `set_area` write.
-/

namespace WacomArea

/-! ## Rounding (src/main.py lines 15-16)

`def round2(num): return round(num + 0.1)` — Python's built-in `round`
rounds half to even. -/

/-- Python's built-in `round` on a rational: nearest integer, ties to even. -/
def pyRound (q : ℚ) : ℤ :=
  let n := ⌊q⌋
  if q - n < 1/2 then n
  else if 1/2 < q - n then n + 1
  else if n % 2 = 0 then n else n + 1

/-- `round2` from src/main.py line 15: `round(num + 0.1)`. -/
def round2 (num : ℚ) : ℤ := pyRound (num + 1/10)

/-! ## Alignment (src/main.py lines 130 and 217-244) -/

/-- The nine `--align` choices (src/main.py line 130). -/
inductive Alignment
  | topleft | top | topright
  | left | center | right
  | bottomleft | bottom | bottomright
  deriving DecidableEq, Repr

/-- The `choices=[...]` restriction argparse applies to `--align`
(src/main.py line 130): any other string is rejected. -/
def parseAlign (s : String) : Option Alignment :=
  if s = "topleft" then some .topleft
  else if s = "top" then some .top
  else if s = "topright" then some .topright
  else if s = "left" then some .left
  else if s = "center" then some .center
  else if s = "right" then some .right
  else if s = "bottomleft" then some .bottomleft
  else if s = "bottom" then some .bottom
  else if s = "bottomright" then some .bottomright
  else none

/-- Offset computation, src/main.py lines 217-244: `offset_x/offset_y`
start at 0 and the nine-way branch chain sets center/full offsets per
axis. -/
def computeOffset (tablet_width tablet_height w h : ℚ) :
    Alignment → ℚ × ℚ
  | .topleft => (0, 0)
  | .top => (tablet_width / 2 - w / 2, 0)
  | .topright => (tablet_width - w, 0)
  | .left => (0, tablet_height / 2 - h / 2)
  | .center => (tablet_width / 2 - w / 2, tablet_height / 2 - h / 2)
  | .right => (tablet_width - w, tablet_height / 2 - h / 2)
  | .bottomleft => (0, tablet_height - h)
  | .bottom => (tablet_width / 2 - w / 2, tablet_height - h)
  | .bottomright => (tablet_width - w, tablet_height - h)

/-! ## Python exceptions and process outcomes -/

/-- Unhandled Python exceptions the program can die with. -/
inductive PyExn
  | zeroDivision   -- float division by zero
  | valueError     -- unpacking/parse failure
  | typeError      -- arithmetic on None
  deriving DecidableEq, Repr

/-- The distinct `sys.exit` diagnostics of `main` (each a non-zero exit). -/
inductive ExitMsg
  | incompatibleArgs     -- line 148
  | missingArgs          -- line 150
  | couldNotFindTablet   -- line 156
  | invalidTabletDevice  -- line 158
  | invalidAspect        -- line 166
  | invalidDeviceArea    -- line 174
  | areaWidthTooBig      -- line 250
  | areaHeightTooBig     -- line 252
  deriving DecidableEq, Repr

/-! ## Full-area size resolution (src/main.py lines 199-215)

The divisions are Python float divisions: a zero divisor raises
`ZeroDivisionError`.  Evaluation order of line 202 is left to right, so the
screen-ratio division is attempted before the tablet-ratio one. -/

/-- Size resolution for `--full` (src/main.py lines 201-210). -/
def fullSize (sw sh tw th : ℚ) : Except PyExn (ℚ × ℚ) :=
  if sh = 0 then .error .zeroDivision
  else if th = 0 then .error .zeroDivision
  else if sw / sh > tw / th then
    if sw = 0 then .error .zeroDivision
    else .ok (tw, tw * (sh / sw))
  else if sw / sh < tw / th then
    .ok (th * (sw / sh), th)
  else
    .ok (tw, th)

/-! ## String parsing primitives

Python's `str.split(sep)` for a single-character separator, and the value
semantics of `int(s)` / `float(s)`.  (`int`/`float` also strip surrounding
whitespace and allow digit-group underscores in Python; no input relevant
here uses those, and the model omits them.) -/

/-- Split a character list at every occurrence of `c`, like Python
`str.split` with a one-character separator (`"".split(c) == [""]`,
`"x".split("x") == ["", ""]`). -/
def splitCharAux (c : Char) : List Char → List Char → List (List Char)
  | [], acc => [acc.reverse]
  | d :: rest, acc =>
    if d = c then acc.reverse :: splitCharAux c rest []
    else splitCharAux c rest (d :: acc)

/-- Python `s.split(c)` for a single-character separator. -/
def pySplit (s : String) (c : Char) : List String :=
  (splitCharAux c s.data []).map String.mk

/-- Accumulate a decimal digit string into a number. -/
def digitsValAux : List Char → Nat → Option Nat
  | [], acc => some acc
  | d :: rest, acc =>
    if d.isDigit then digitsValAux rest (acc * 10 + (d.toNat - 48)) else none

/-- Value of a nonempty all-digit character list. -/
def digitsVal (l : List Char) : Option Nat :=
  if l = [] then none else digitsValAux l 0

/-- Python `int(s)`: optional sign followed by digits; `none` models the
`ValueError` raised on anything else. -/
def pyIntVal : List Char → Option ℤ
  | '-' :: rest => (digitsVal rest).map (fun n => -(n : ℤ))
  | '+' :: rest => (digitsVal rest).map (fun n => (n : ℤ))
  | l => (digitsVal l).map (fun n => (n : ℤ))

/-- Unsigned part of Python `float(s)` restricted to decimal notation. -/
def pyFloatValUnsigned (l : List Char) : Option ℚ :=
  match splitCharAux '.' l [] with
  | [i] => (digitsVal i).map (fun n => (n : ℚ))
  | [i, f] =>
    match digitsVal i, digitsVal f with
    | some a, some b => some ((a : ℚ) + (b : ℚ) / (10 : ℚ) ^ f.length)
    | _, _ => none
  | _ => none

/-- Python `float(s)` (decimal notation; every string `int(s)` accepts is
accepted with the same value). -/
def pyFloatVal : List Char → Option ℚ
  | '-' :: rest => (pyFloatValUnsigned rest).map (fun q => -q)
  | '+' :: rest => pyFloatValUnsigned rest
  | l => pyFloatValUnsigned l

/-! ## String conversions of src/main.py -/

/-- `convert_aspect` (src/main.py lines 99-101): split on `":"`, unpack
exactly two components, `float` each; `none` models the exception escape
(unpack failure or float failure). -/
def convert_aspect (s : String) : Option (ℚ × ℚ) :=
  match pySplit s ':' with
  | [w, h] =>
    match pyFloatVal w.data, pyFloatVal h.data with
    | some a, some b => some (a, b)
    | _, _ => none
  | _ => none

/-- `convert_size` (src/main.py lines 103-105): split on `"x"`, unpack
exactly two components, `float` each; `none` models the exception escape. -/
def convert_size (s : String) : Option (ℚ × ℚ) :=
  match pySplit s 'x' with
  | [w, h] =>
    match pyFloatVal w.data, pyFloatVal h.data with
    | some a, some b => some (a, b)
    | _, _ => none
  | _ => none

/-- The aspect-ratio validation of `main` (src/main.py lines 160-166):
split on `":"`, unpack exactly two components, `int`-parse both; any
exception is caught and turned into the `invalid screen aspect ratio`
exit.  Note there is no positivity (or nonzero) requirement. -/
def aspectCheck (s : String) : Option (ℤ × ℤ) :=
  match pySplit s ':' with
  | [w, h] =>
    match pyIntVal w.data, pyIntVal h.data with
    | some a, some b => some (a, b)
    | _, _ => none
  | _ => none

/-- The `--device-area` validation of `main` (src/main.py lines 169-174):
every `"x"`-separated component must `int`-parse.  The component count is
not checked. -/
def deviceAreaValid (s : String) : Bool :=
  (pySplit s 'x').all fun t => (pyIntVal t.data).isSome

/-! ## Units, arguments, device environment, actions -/

/-- The `--unit` choices (src/main.py line 128). -/
inductive LUnit
  | inch | cm | mm | lines
  deriving DecidableEq, Repr

/-- Unit divisors (src/main.py lines 183-188).  The `lines` case is
unreachable there (the surrounding `if` at line 182 excludes it; Python
would leave `divisor` unbound). -/
def divisorOf : LUnit → ℚ
  | .inch => 1
  | .cm => 254/100
  | .mm => 254/10
  | .lines => 1

/-- The parsed command line (the `-v` verbose flag only changes stdout and
is omitted).  argparse guarantees `width`/`height` are floats when present
and `align`/`unit` are within their `choices`. -/
structure Args where
  device : Option String
  aspect : String
  deviceArea : Option String
  deviceResolution : ℚ
  width : Option ℚ
  height : Option ℚ
  unit : LUnit
  full : Bool
  align : Alignment
  dryRun : Bool

/-- Responses of the external `xsetwacom` collaborator: the device found by
`find_first_tablet`, whether the selected device has a settable `Area`, and
the four whitespace-separated fields of `--get Area` output (line 92). -/
structure DeviceEnv where
  foundDevice : Option String
  deviceHasArea : Bool
  queriedFields : List String

/-- The final quantized rectangle handed to `set_area` (line 255). -/
structure Cmd where
  x1 : ℤ
  y1 : ℤ
  x2 : ℤ
  y2 : ℤ
  deriving DecidableEq, Repr

/-- External `xsetwacom` calls made during a run: read-only queries
(`--list`, `--get Area`), the reset-to-default-area write issued by
`get_tablet_max_area` (lines 74-81, `--set ... Area "-1 -1 -1 -1"`), and
the final area write. -/
inductive Action
  | query
  | resetArea
  | setArea (cmd : Cmd)
  deriving DecidableEq, Repr

/-- Device writes are the two `--set` calls. -/
def Action.isWrite : Action → Bool
  | .query => false
  | .resetArea => true
  | .setArea _ => true

/-- The final-area write only. -/
def Action.isSetArea : Action → Bool
  | .query => false
  | .resetArea => false
  | .setArea _ => true

/-- How a run ends: a clean `sys.exit(msg)` (non-zero), an unhandled Python
exception, or normal completion with the computed rectangle. -/
inductive Outcome
  | exited (msg : ExitMsg)
  | crashed (e : PyExn)
  | completed (cmd : Cmd)
  deriving DecidableEq, Repr

deriving instance DecidableEq for Except

/-! ## The main pipeline (src/main.py lines 120-255) -/

/-- Number of the mutually exclusive options `width`/`height`/`full`
present (src/main.py lines 140-147). -/
def foundCount (args : Args) : Nat :=
  (if args.width.isSome then 1 else 0) +
  (if args.height.isSome then 1 else 0) +
  (if args.full then 1 else 0)

/-- Actions of `get_tablet_max_area` (lines 72-97): the reset write, then
the area query; `--dry-run` skips the reset (lines 73, 82-84). -/
def getTabletMaxAreaActs (dryRun : Bool) : List Action :=
  (if dryRun then [] else [Action.resetArea]) ++ [Action.query]

/-- Lines 168-176: either validate the `--device-area` override or query
the device (after resetting it).  Querying unpacks four fields (line 92) —
fewer or more is an unhandled `ValueError`. -/
def areaStage (args : Args) (env : DeviceEnv) :
    List Action × Except Outcome String :=
  match args.deviceArea with
  | some s =>
    ([], if deviceAreaValid s then .ok s else .error (.exited .invalidDeviceArea))
  | none =>
    match env.queriedFields with
    | [_, _, x2s, y2s] =>
      (getTabletMaxAreaActs args.dryRun, .ok (x2s ++ "x" ++ y2s))
    | _ => (getTabletMaxAreaActs args.dryRun, .error (.crashed .valueError))

/-- Lines 180-196: convert the explicit width or height into lines.  Only
the one that is present is converted (line 190). -/
def convertStage (args : Args) : Option ℚ × Option ℚ :=
  if args.full = false ∧ args.unit ≠ LUnit.lines then
    match args.width with
    | some w => (some (w / divisorOf args.unit * args.deviceResolution), args.height)
    | none =>
      (none, args.height.map fun h => h / divisorOf args.unit * args.deviceResolution)
  else (args.width, args.height)

/-- Lines 201-215: resolve the active-area size.  In explicit mode the
missing dimension is derived from the aspect ratio; the divisions raise
`ZeroDivisionError` on a zero screen component.  The two cases with
neither or both of width/height present are unreachable (lines 140-150);
with neither present Python would hit a `TypeError` on `None`. -/
def sizeStage (full : Bool) (wOpt hOpt : Option ℚ) (sw sh tw th : ℚ) :
    Except PyExn (ℚ × ℚ) :=
  if full then fullSize sw sh tw th
  else
    match wOpt, hOpt with
    | none, none => .error .typeError
    | none, some h => if sh = 0 then .error .zeroDivision else .ok (h * (sw / sh), h)
    | some w, none => if sw = 0 then .error .zeroDivision else .ok (w, w * (sh / sw))
    | some w, some h => .ok (w, h)

/-- Lines 217-252: compute the offsets, the far corner, and run the
quantized bounds check; on success build the `set_area` rectangle of
line 255. -/
def computeCommand (tw th w h : ℚ) (align : Alignment) : Except ExitMsg Cmd :=
  let off := computeOffset tw th w h align
  let x2 := off.1 + w
  let y2 := off.2 + h
  if round2 tw < round2 x2 then .error .areaWidthTooBig
  else if round2 th < round2 y2 then .error .areaHeightTooBig
  else .ok ⟨round2 off.1, round2 off.2, round2 x2, round2 y2⟩

/-- `main` (src/main.py lines 120-255), from after argparse to the final
`set_area` call, returning the trace of external `xsetwacom` calls and how
the process ends. -/
def mainRun (args : Args) (env : DeviceEnv) : List Action × Outcome :=
  -- lines 140-150: exactly one of width/height/full must be given
  if 1 < foundCount args then ([], .exited .incompatibleArgs)
  else if foundCount args = 0 then ([], .exited .missingArgs)
  else
    -- lines 152-158: discovery queries run only now, after the arg check
    let dActs : List Action := if args.device.isNone then [.query] else []
    match args.device.or env.foundDevice with
    | none => (dActs, .exited .couldNotFindTablet)
    | some _ =>
      if env.deviceHasArea = false then
        (dActs ++ [.query], .exited .invalidTabletDevice)
      else
        -- lines 160-166: aspect-ratio validation
        match aspectCheck args.aspect with
        | none => (dActs ++ [.query], .exited .invalidAspect)
        | some _ =>
          -- lines 168-176: device area override or query
          match areaStage args env with
          | (aActs, .error o) => (dActs ++ [.query] ++ aActs, o)
          | (aActs, .ok areaStr) =>
            let acts := dActs ++ [.query] ++ aActs
            -- lines 180-196: unit conversion
            let wh := convertStage args
            -- line 199: convert_aspect (cannot fail after aspectCheck)
            match convert_aspect args.aspect with
            | none => (acts, .crashed .valueError)
            | some (sw, sh) =>
              -- line 200: convert_size; a component count other than two
              -- passed validation but fails the unpack here
              match convert_size areaStr with
              | none => (acts, .crashed .valueError)
              | some (tw, th) =>
                -- lines 201-215: size resolution
                match sizeStage args.full wh.1 wh.2 sw sh tw th with
                | .error e => (acts, .crashed e)
                | .ok (w, h) =>
                  -- lines 217-252: offsets and bounds check
                  match computeCommand tw th w h args.align with
                  | .error msg => (acts, .exited msg)
                  | .ok cmd =>
                    -- line 255: the only final-area write; --dry-run skips it
                    (acts ++ (if args.dryRun then [] else [.setArea cmd]),
                     .completed cmd)

/-! ## round2 characterization -/

/-- Helper: the exact behaviour of `round2`.  It agrees with half-up
rounding `⌊q + 1/2⌋` except when the fractional part of `q` lies in
`(2/5, 1/2)`, or equals `2/5` with `⌊q⌋` odd, where it returns one more. -/
lemma round2_characterization (q : ℚ) :
    round2 q =
      if (2/5 < Int.fract q ∧ Int.fract q < 1/2) ∨
         (Int.fract q = 2/5 ∧ ⌊q⌋ % 2 = 1) then
        ⌊q + 1/2⌋ + 1
      else ⌊q + 1/2⌋ := by
  have hf0 : 0 ≤ Int.fract q := Int.fract_nonneg q
  have hf1 : Int.fract q < 1 := Int.fract_lt_one q
  have hq : (⌊q⌋ : ℚ) + Int.fract q = q := Int.floor_add_fract q
  rcases lt_or_le (Int.fract q) (1/2) with hlt | hge
  · -- fractional part below 1/2 : ⌊q + 1/2⌋ = ⌊q⌋, ⌊q + 1/10⌋ = ⌊q⌋
    have hfloor_half : ⌊q + 1/2⌋ = ⌊q⌋ := by
      rw [Int.floor_eq_iff]
      constructor
      · linarith
      · push_cast
        linarith
    have hfloor_tenth : ⌊q + 1/10⌋ = ⌊q⌋ := by
      rw [Int.floor_eq_iff]
      constructor
      · linarith
      · push_cast
        linarith
    rcases lt_trichotomy (Int.fract q) (2/5) with h25 | h25 | h25
    · -- f < 2/5 : round2 returns ⌊q⌋, no disagreement
      rw [if_neg (by push_neg; constructor <;> intro <;> first | linarith | intro; linarith)]
      rw [hfloor_half]
      simp only [round2, pyRound, hfloor_tenth]
      rw [if_pos (by linarith)]
    · -- f = 2/5 : exact tie in Python round, parity decides
      have heq : q + 1/10 - (⌊q⌋ : ℚ) = 1/2 := by linarith
      rcases Int.emod_two_eq_zero_or_one ⌊q⌋ with hev | hodd
      · rw [if_neg (by push_neg; constructor <;> intro <;> first | linarith | intro; omega)]
        rw [hfloor_half]
        simp only [round2, pyRound, hfloor_tenth]
        rw [if_neg (by linarith), if_neg (by linarith), if_pos hev]
      · rw [if_pos (Or.inr ⟨h25, hodd⟩), hfloor_half]
        simp only [round2, pyRound, hfloor_tenth]
        rw [if_neg (by linarith), if_neg (by linarith), if_neg (by omega)]
    · -- 2/5 < f < 1/2 : Python rounds up, half-up rounds down
      rw [if_pos (Or.inl ⟨h25, hlt⟩), hfloor_half]
      simp only [round2, pyRound, hfloor_tenth]
      rw [if_neg (by linarith), if_pos (by linarith)]
  · -- fractional part at least 1/2 : ⌊q + 1/2⌋ = ⌊q⌋ + 1, agreement
    have hfloor_half : ⌊q + 1/2⌋ = ⌊q⌋ + 1 := by
      rw [Int.floor_eq_iff]
      constructor
      · push_cast
        linarith
      · push_cast
        linarith
    rw [if_neg (by push_neg; constructor <;> intro <;> first | linarith | intro; linarith)]
    rw [hfloor_half]
    rcases lt_or_le (Int.fract q) (9/10) with h9 | h9
    · have hfloor_tenth : ⌊q + 1/10⌋ = ⌊q⌋ := by
        rw [Int.floor_eq_iff]
        constructor
        · linarith
        · push_cast
          linarith
      simp only [round2, pyRound, hfloor_tenth]
      rw [if_neg (by linarith), if_pos (by linarith)]
    · have hfloor_tenth : ⌊q + 1/10⌋ = ⌊q⌋ + 1 := by
        rw [Int.floor_eq_iff]
        constructor
        · push_cast
          linarith
        · push_cast
          linarith
      simp only [round2, pyRound, hfloor_tenth]
      rw [if_pos (by push_cast; linarith)]

/-- Helper: `round2` is the identity on integers. -/
lemma round2_intCast (n : ℤ) : round2 (n : ℚ) = n := by
  have hfr : Int.fract ((n : ℚ)) = 0 := Int.fract_intCast n
  have hfl : ⌊(n : ℚ) + 1/2⌋ = n := by
    rw [Int.floor_eq_iff]
    constructor
    · linarith
    · push_cast
      linarith
  rw [round2_characterization, hfr, hfl]
  rw [if_neg (by push_neg; constructor <;> intro h <;> [linarith; norm_num at h])]

/-- Helper: evaluate `round2` at a value shown equal to an integer. -/
lemma round2_eval (q : ℚ) (n : ℤ) (h : q = (n : ℚ)) : round2 q = n := by
  rw [h, round2_intCast]

/-! ## Claim theorems -/

/-- C1: for every tablet area with positive width and height and every
aspect ratio with positive components, full-area mode resolves a size that
preserves the screen aspect ratio exactly (over ℚ, hence within any
floating-point tolerance) and pins at least one dimension to the tablet:
the width when the screen aspect is wider than the tablet's, the height
when narrower, and both when equal. -/
theorem full_mode_resolution (sw sh tw th : ℚ)
    (hsw : 0 < sw) (hsh : 0 < sh) (htw : 0 < tw) (hth : 0 < th) :
    ∃ w h, fullSize sw sh tw th = .ok (w, h) ∧
      w / h = sw / sh ∧
      (w = tw ∨ h = th) ∧
      (tw / th < sw / sh → w = tw) ∧
      (sw / sh < tw / th → h = th) ∧
      (sw / sh = tw / th → w = tw ∧ h = th) := by
  have hsh' : sh ≠ 0 := ne_of_gt hsh
  have hth' : th ≠ 0 := ne_of_gt hth
  have hsw' : sw ≠ 0 := ne_of_gt hsw
  have htw' : tw ≠ 0 := ne_of_gt htw
  unfold fullSize
  rw [if_neg hsh', if_neg hth']
  rcases lt_trichotomy (sw / sh) (tw / th) with hcmp | hcmp | hcmp
  · -- screen narrower than tablet: height pinned
    rw [if_neg (by push_neg; linarith), if_pos hcmp]
    refine ⟨th * (sw / sh), th, rfl, ?_, Or.inr rfl, ?_, fun _ => rfl, ?_⟩
    · field_simp
      ring
    · intro hgt
      linarith
    · intro heq
      exact absurd heq (ne_of_lt hcmp)
  · -- equal aspects: both pinned
    rw [if_neg (by push_neg; linarith), if_neg (by push_neg; linarith)]
    exact ⟨tw, th, rfl, by rw [hcmp], Or.inl rfl, fun hgt => rfl, fun hlt => rfl,
      fun _ => ⟨rfl, rfl⟩⟩
  · -- screen wider than tablet: width pinned
    rw [if_pos hcmp, if_neg hsw']
    refine ⟨tw, tw * (sh / sw), rfl, ?_, Or.inl rfl, fun _ => rfl, ?_, ?_⟩
    · field_simp
      ring
    · intro hlt
      linarith
    · intro heq
      exact absurd heq (ne_of_gt hcmp)

/-- Witness for C1 at a concrete input (tablet 10000×6000, aspect 16:9,
where the screen is wider than the tablet). -/
theorem full_mode_resolution_witness :
    ∃ w h, fullSize 16 9 10000 6000 = .ok (w, h) ∧
      w / h = 16 / 9 ∧
      (w = 10000 ∨ h = 6000) ∧
      ((10000 : ℚ) / 6000 < 16 / 9 → w = 10000) ∧
      ((16 : ℚ) / 9 < 10000 / 6000 → h = 6000) ∧
      ((16 : ℚ) / 9 = 10000 / 6000 → w = 10000 ∧ h = 6000) :=
  full_mode_resolution 16 9 10000 6000 (by norm_num) (by norm_num) (by norm_num)
    (by norm_num)

/-- C2: the nine alignment values produce exactly the offsets of the spec
table (zero, center = (tablet − size)/2, or full = tablet − size,
independently per axis), and no string outside the nine values is accepted
by the `--align` choices. -/
theorem alignment_offset_table :
    (∀ tw th w h : ℚ,
      computeOffset tw th w h .topleft = (0, 0) ∧
      computeOffset tw th w h .top = ((tw - w) / 2, 0) ∧
      computeOffset tw th w h .topright = (tw - w, 0) ∧
      computeOffset tw th w h .left = (0, (th - h) / 2) ∧
      computeOffset tw th w h .center = ((tw - w) / 2, (th - h) / 2) ∧
      computeOffset tw th w h .right = (tw - w, (th - h) / 2) ∧
      computeOffset tw th w h .bottomleft = (0, th - h) ∧
      computeOffset tw th w h .bottom = ((tw - w) / 2, th - h) ∧
      computeOffset tw th w h .bottomright = (tw - w, th - h)) ∧
    (∀ s : String, (parseAlign s).isSome ↔
      s = "topleft" ∨ s = "top" ∨ s = "topright" ∨ s = "left" ∨ s = "center" ∨
      s = "right" ∨ s = "bottomleft" ∨ s = "bottom" ∨ s = "bottomright") := by
  constructor
  · intro tw th w h
    have h2 : ∀ a b : ℚ, a / 2 - b / 2 = (a - b) / 2 := fun a b => by ring
    simp [computeOffset, h2]
  · intro s
    unfold parseAlign
    split_ifs <;> simp_all

/-- C3 counterexample: at x = 1.4 the quantizer returns 2 (Python rounds
1.4 + 0.1 = 1.5 half-to-even, and up at an odd floor), while
⌊1.4 + 0.5⌋ = 1; so `quantize(x) = floor(x + 0.5)` fails, and the result
is not the nearest integer either. -/
theorem round2_not_floor_half_up :
    round2 (7/5) = 2 ∧ ⌊(7/5 : ℚ) + 1/2⌋ = 1 ∧
      round2 (7/5) ≠ ⌊(7/5 : ℚ) + 1/2⌋ := by
  have hfl : ⌊(7/5 : ℚ)⌋ = 1 := by norm_num [Int.floor_eq_iff]
  have hfr : Int.fract (7/5 : ℚ) = 2/5 := by
    unfold Int.fract
    rw [hfl]
    norm_num
  have h2 : ⌊(7/5 : ℚ) + 1/2⌋ = 1 := by norm_num [Int.floor_eq_iff]
  have h1 : round2 (7/5) = 2 := by
    rw [round2_characterization, hfr, hfl, if_pos (Or.inr ⟨rfl, rfl⟩), h2]
    norm_num
  refine ⟨h1, h2, ?_⟩
  rw [h1, h2]
  norm_num

/-- C3 amended: the quantizer is Python round-half-to-even applied to
x + 0.1.  It equals ⌊x + 0.5⌋ (half-up rounding) except when the
fractional part of x lies strictly between 0.4 and 0.5, or equals 0.4
with an odd integer part, where it returns ⌊x + 0.5⌋ + 1 (rounding up,
away from the nearest integer). -/
theorem quantizer_behaviour (q : ℚ) :
    round2 q =
      if (2/5 < Int.fract q ∧ Int.fract q < 1/2) ∨
         (Int.fract q = 2/5 ∧ ⌊q⌋ % 2 = 1) then
        ⌊q + 1/2⌋ + 1
      else ⌊q + 1/2⌋ :=
  round2_characterization q

/-- C7: for every tablet area, resolved size and alignment, if the size
fits the tablet per axis then the pre-quantization rectangle stays inside:
offsetX + width ≤ tabletWidth and offsetY + height ≤ tabletHeight. -/
theorem offsets_within_bounds (tw th w h : ℚ) (a : Alignment)
    (hw : w ≤ tw) (hh : h ≤ th) :
    (computeOffset tw th w h a).1 + w ≤ tw ∧
    (computeOffset tw th w h a).2 + h ≤ th := by
  cases a <;> simp only [computeOffset] <;> constructor <;> linarith

/-- Witness for C7 at a concrete input. -/
theorem offsets_within_bounds_witness :
    (computeOffset 10000 6000 5000 2813 .center).1 + 5000 ≤ 10000 ∧
    (computeOffset 10000 6000 5000 2813 .center).2 + 2813 ≤ 6000 :=
  offsets_within_bounds 10000 6000 5000 2813 .center (by norm_num) (by norm_num)

/-- C9 counterexample: the aspect string `16:0` (zero vertical component)
and `-3:9` (negative horizontal component) both pass the program's aspect
validation, so acceptance does not imply positive components. -/
theorem aspect_validation_accepts_nonpositive :
    aspectCheck "16:0" = some (16, 0) ∧ ¬ ((0 : ℤ) > 0) ∧
    aspectCheck "-3:9" = some (-3, 9) ∧ ¬ ((-3 : ℤ) > 0) := by decide

/-- C9 amended: every aspect-ratio string the validation accepts splits on
`:` into exactly two components, each parsing as an integer of arbitrary
sign; positivity is not enforced (zero or negative components are
accepted, see the counterexample). -/
theorem aspect_accepted_structure (s : String) (p : ℤ × ℤ)
    (h : aspectCheck s = some p) :
    ∃ a b : String, pySplit s ':' = [a, b] ∧
      pyIntVal a.data = some p.1 ∧ pyIntVal b.data = some p.2 := by
  unfold aspectCheck at h
  split at h
  · rename_i a b hsp
    split at h
    · rename_i x y hx hy
      obtain rfl : (x, y) = p := Option.some.inj h
      exact ⟨a, b, hsp, hx, hy⟩
    · exact absurd h (by simp)
  · exact absurd h (by simp)

/-- Witness for the amended C9 at the concrete accepted string `16:0`. -/
theorem aspect_accepted_structure_witness :
    ∃ a b : String, pySplit "16:0" ':' = [a, b] ∧
      pyIntVal a.data = some (16, (0:ℤ)).1 ∧ pyIntVal b.data = some (16, (0:ℤ)).2 :=
  aspect_accepted_structure "16:0" (16, 0) (by decide)

/-- C10: `--device-area` strings whose `x`-separated component count is not
two (a single integer, or three components) pass the device-area
validation — it only int-parses each component — but `convert_size`
unpacks exactly two, so the run dies with an unhandled exception
(`ValueError`) instead of a clean parse-error exit. -/
theorem device_area_count_mismatch_unhandled :
    deviceAreaValid "8000" = true ∧ convert_size "8000" = none ∧
    deviceAreaValid "1x2x3" = true ∧ convert_size "1x2x3" = none ∧
    mainRun ⟨some "9", "16:9", some "8000", 2540, none, none, .mm, true,
        .center, false⟩ ⟨none, true, []⟩ =
      ([.query], .crashed .valueError) := by decide

/-- C6 (code bug): with a zero tablet height (`--device-area 1000x0`,
`--full`), the aspect comparison divides by the tablet height with no
guard: the run dies with an unhandled `ZeroDivisionError` instead of the
clean device-error exit the spec requires. -/
theorem zero_height_tablet_division_crash :
    fullSize 16 9 1000 0 = .error .zeroDivision ∧
    mainRun ⟨some "9", "16:9", some "1000x0", 2540, none, none, .mm, true,
        .center, false⟩ ⟨none, true, []⟩ =
      ([.query], .crashed .zeroDivision) := by decide

/-- C8: supplying both `--width` and `--height`, or none of
`--width`/`--height`/`--full`, is rejected with a non-zero exit before any
device I/O (the action trace is empty). -/
theorem exclusive_args_rejected (args : Args) (env : DeviceEnv) :
    (args.width.isSome → args.height.isSome →
      mainRun args env = ([], .exited .incompatibleArgs)) ∧
    (args.width = none → args.height = none → args.full = false →
      mainRun args env = ([], .exited .missingArgs)) := by
  constructor
  · intro hw hh
    have hgt : 1 < foundCount args := by
      unfold foundCount
      rw [if_pos hw, if_pos hh]
      omega
    unfold mainRun
    rw [if_pos hgt]
  · intro hw hh hf
    have h0 : foundCount args = 0 := by
      unfold foundCount
      rw [hw, hh, hf]
      simp
    unfold mainRun
    rw [if_neg (by omega), if_pos h0]

/-- Witness for C8: a run with both width and height, and a run with none
of the three, each rejected with an empty action trace. -/
theorem exclusive_args_rejected_witness :
    mainRun ⟨none, "16:9", none, 2540, some 50, some 40, .mm, false, .center,
        false⟩ ⟨none, true, []⟩ = ([], .exited .incompatibleArgs) ∧
    mainRun ⟨none, "16:9", none, 2540, none, none, .mm, false, .center,
        false⟩ ⟨none, true, []⟩ = ([], .exited .missingArgs) :=
  ⟨(exclusive_args_rejected _ _).1 rfl rfl,
   (exclusive_args_rejected _ _).2 rfl rfl rfl⟩

/-- Helper: the `get_tablet_max_area` actions contain no final-area write. -/
lemma getTabletMaxAreaActs_no_setArea (b : Bool) :
    (getTabletMaxAreaActs b).filter Action.isSetArea = [] := by
  cases b <;> rfl

/-- Helper: the area stage never emits the final-area write. -/
lemma areaStage_no_setArea (args : Args) (env : DeviceEnv) :
    ((areaStage args env).1).filter Action.isSetArea = [] := by
  unfold areaStage
  split
  · rfl
  · split
    · exact getTabletMaxAreaActs_no_setArea _
    · exact getTabletMaxAreaActs_no_setArea _

/-- Helper: evaluation of `isSetArea` on a query. -/
lemma isSetArea_query : Action.isSetArea .query = false := rfl

/-- Helper: evaluation of `isSetArea` on the reset write. -/
lemma isSetArea_reset : Action.isSetArea .resetArea = false := rfl

/-- Helper: evaluation of `isSetArea` on the final write. -/
lemma isSetArea_set (c : Cmd) : Action.isSetArea (.setArea c) = true := rfl

/-- Helper: a list each of whose elements fails the predicate filters to
nothing. -/
lemma filter_setArea_nil_of_all (l : List Action)
    (h : ∀ a ∈ l, Action.isSetArea a = false) :
    List.filter Action.isSetArea l = [] := by
  induction l with
  | nil => rfl
  | cons a t ih =>
    rw [List.filter_cons, h a (by simp)]
    exact ih fun b hb => h b (by simp [hb])

/-- C5 amended: the final-area write (`set_area` of the computed
rectangle) happens at most once per run, and only on a run that completes
(i.e. after the bounds validation passed); every failing run emits no
final-area write.  (The separate reset-to-default write that precedes the
area query is NOT covered by this guarantee — see the counterexample.) -/
theorem device_write_discipline (args : Args) (env : DeviceEnv)
    (muts : List Action) (out : Outcome)
    (h : mainRun args env = (muts, out)) :
    (muts.filter Action.isSetArea).length ≤ 1 ∧
    ((∀ cmd, out ≠ .completed cmd) → muts.filter Action.isSetArea = []) := by
  simp only [mainRun] at h
  repeat' split at h
  all_goals (
    injection h with h1 h2
    subst h1
    subst h2
    have hA := areaStage_no_setArea args env
    refine ⟨?_, fun hne => ?_⟩ <;>
      first
        | exact absurd rfl (hne _)
        | decide
        | simp_all [List.filter_append, isSetArea_query, isSetArea_reset,
            isSetArea_set, filter_setArea_nil_of_all])

/-- Witness for amended C5: a concrete failing run (device-area component
count mismatch) emits no final-area write. -/
theorem device_write_discipline_witness :
    (([Action.query].filter Action.isSetArea)).length ≤ 1 ∧
    ((∀ cmd, Outcome.crashed .valueError ≠ .completed cmd) →
      [Action.query].filter Action.isSetArea = []) :=
  device_write_discipline
    ⟨some "9", "16:9", some "8000", 2540, none, none, .mm, true, .center, false⟩
    ⟨none, true, []⟩ [Action.query] (.crashed .valueError) (by decide)

/-- C5 counterexample: a run that queries the tablet area (no
`--device-area`, not dry-run) resets the device to its default area —
a device write — before validation; when the geometry check then fails,
the run exits non-zero having already mutated the device, contradicting
"a run that fails at any stage performs no device write at all". -/
theorem failed_run_already_reset_device :
    mainRun ⟨some "9", "1:1", none, 2540, some 2000, none, .lines, false,
        .center, false⟩ ⟨none, true, ["0", "0", "1000", "1000"]⟩ =
      ([.query, .resetArea, .query], .exited .areaWidthTooBig) ∧
    Action.isWrite .resetArea = true := by
  have hac : aspectCheck "1:1" = some (1, 1) := by decide
  have hca : convert_aspect "1:1" = some (1, 1) := by decide
  have hcs : convert_size "1000x1000" = some (1000, 1000) := by decide
  have hsz : sizeStage false (some 2000) none 1 1 1000 1000 = .ok (2000, 2000) := by
    norm_num [sizeStage]
  have hcc : computeCommand 1000 1000 2000 2000 .center =
      .error .areaWidthTooBig := by
    simp only [computeCommand, computeOffset]
    rw [round2_eval ((1000:ℚ)/2 - 2000/2 + 2000) 1500 (by norm_num),
      round2_eval ((1000:ℚ)) 1000 (by norm_num)]
    rw [if_pos (by norm_num)]
  refine ⟨?_, rfl⟩
  simp [mainRun, foundCount, areaStage, getTabletMaxAreaActs, convertStage,
    hac, hca, hcs, hsz, hcc, Option.or]

/-- C4 counterexample: with `--align topright`, a requested width of 2000
on a 1000-wide tablet passes the bounds check (the far edge lands exactly
on the tablet edge because the origin goes negative) and the area IS
written to the device; no geometry error is reported even though the
requested width exceeds the tablet width. -/
theorem oversized_width_right_aligned_still_writes :
    mainRun ⟨some "9", "2:1", some "1000x1000", 2540, some 2000, none, .lines,
        false, .topright, false⟩ ⟨none, true, []⟩ =
      ([.query, .setArea ⟨-1000, 0, 1000, 1000⟩],
        .completed ⟨-1000, 0, 1000, 1000⟩) ∧
    (1000 : ℚ) < 2000 := by
  have hac : aspectCheck "2:1" = some (2, 1) := by decide
  have hca : convert_aspect "2:1" = some (2, 1) := by decide
  have hvd : deviceAreaValid "1000x1000" = true := by decide
  have hcs : convert_size "1000x1000" = some (1000, 1000) := by decide
  have hsz : sizeStage false (some 2000) none 2 1 1000 1000 = .ok (2000, 1000) := by
    norm_num [sizeStage]
  have hcc : computeCommand 1000 1000 2000 1000 .topright =
      .ok ⟨-1000, 0, 1000, 1000⟩ := by
    simp only [computeCommand, computeOffset]
    rw [round2_eval ((1000:ℚ) - 2000 + 2000) 1000 (by norm_num),
      round2_eval ((0:ℚ) + 1000) 1000 (by norm_num),
      round2_eval ((1000:ℚ) - 2000) (-1000) (by norm_num),
      round2_eval ((0:ℚ)) 0 (by norm_num),
      round2_eval ((1000:ℚ)) 1000 (by norm_num)]
    norm_num
  refine ⟨?_, by norm_num⟩
  simp [mainRun, foundCount, areaStage, convertStage, hac, hca, hvd, hcs,
    hsz, hcc, Option.or]

/-- C4 amended: a geometry error (non-zero exit, no device write) is
reported exactly when the quantized far edge exceeds the quantized tablet
edge; for the left-column alignments (topleft/left/bottomleft, zero
horizontal offset) this triggers whenever round2(width) > round2(tablet
width).  For right-column alignments an oversized width shifts the origin
negative and can pass the check (see the counterexample). -/
theorem width_overflow_reported_left_aligned
    (args : Args) (env : DeviceEnv) (w tw th sw sh : ℚ) (pa : ℤ × ℤ)
    (dev s : String)
    (hfull : args.full = false)
    (hw : args.width = some w)
    (hh : args.height = none)
    (hunit : args.unit = LUnit.lines)
    (halign : args.align = .topleft ∨ args.align = .left ∨
      args.align = .bottomleft)
    (hdev : args.device = some dev)
    (hhas : env.deviceHasArea = true)
    (hac : aspectCheck args.aspect = some pa)
    (hca : convert_aspect args.aspect = some (sw, sh))
    (hsw : sw ≠ 0)
    (harea : args.deviceArea = some s)
    (hvalid : deviceAreaValid s = true)
    (hcs : convert_size s = some (tw, th))
    (hover : round2 tw < round2 w) :
    mainRun args env = ([.query], .exited .areaWidthTooBig) := by
  have hfc : foundCount args = 1 := by
    simp [foundCount, hw, hh, hfull]
  have hcc : computeCommand tw th w (w * (sh / sw)) args.align =
      .error .areaWidthTooBig := by
    rcases halign with h | h | h <;>
      (rw [h]
       simp only [computeCommand, computeOffset]
       rw [zero_add, if_pos hover])
  simp [mainRun, hfc, hdev, hhas, hac, hca, harea, hvalid, hcs, areaStage,
    convertStage, hfull, hunit, hw, hh, sizeStage, hsw, hcc, Option.or]

/-- Witness for amended C4: a concrete left-aligned oversized run exits
with the geometry width error and an all-read-only trace. -/
theorem width_overflow_reported_left_aligned_witness :
    mainRun ⟨some "9", "1:1", some "1000x1000", 2540, some 2000, none, .lines,
        false, .topleft, false⟩ ⟨none, true, []⟩ =
      ([.query], .exited .areaWidthTooBig) :=
  width_overflow_reported_left_aligned _ _ 2000 1000 1000 1 1 (1, 1) "9"
    "1000x1000" rfl rfl rfl rfl (Or.inl rfl) rfl rfl (by decide) (by decide)
    (by norm_num) rfl (by decide) (by decide)
    (by rw [round2_eval ((1000:ℚ)) 1000 (by norm_num),
          round2_eval ((2000:ℚ)) 2000 (by norm_num)]
        norm_num)

end WacomArea
